import Mathlib

/-!
Shallow embedding of the WhatsApp chatbot ingestion pipeline
(`database.py`, `modules/scraper.py`, `whatsapp_bot.py`, `modules/utils.py`)
and proofs of the specification claims about it.

The repository contains two parallel implementations of the pipeline: the
refactored modules (`database.py`, `modules/scraper.py`) and the monolithic
`whatsapp_bot.py`.  Where they differ the embedding keeps both, in the
namespaces `DB`/`Scraper` (modules version) and `Bot` (monolith version).
-/

set_option maxRecDepth 10000

/-! ## SHA-256 over `Nat` (embedding of Python `hashlib.sha256`)

Words are natural numbers kept below `2 ^ 32`; every arithmetic operation is
reduced `% 2 ^ 32`. -/

namespace SHA256

def w32 : Nat := 4294967296

def add32 (a b : Nat) : Nat := (a + b) % w32

def rotr (n x : Nat) : Nat := ((x >>> n) ||| (x <<< (32 - n))) % w32

def shr (n x : Nat) : Nat := x >>> n

def bnot32 (x : Nat) : Nat := Nat.xor x 4294967295

def ch (x y z : Nat) : Nat := Nat.xor (Nat.land x y) (Nat.land (bnot32 x) z)

def maj (x y z : Nat) : Nat :=
  Nat.xor (Nat.xor (Nat.land x y) (Nat.land x z)) (Nat.land y z)

def bigSigma0 (x : Nat) : Nat := Nat.xor (Nat.xor (rotr 2 x) (rotr 13 x)) (rotr 22 x)

def bigSigma1 (x : Nat) : Nat := Nat.xor (Nat.xor (rotr 6 x) (rotr 11 x)) (rotr 25 x)

def smallSigma0 (x : Nat) : Nat := Nat.xor (Nat.xor (rotr 7 x) (rotr 18 x)) (shr 3 x)

def smallSigma1 (x : Nat) : Nat := Nat.xor (Nat.xor (rotr 17 x) (rotr 19 x)) (shr 10 x)

/-- The 64 SHA-256 round constants, in decimal. -/
def K : List Nat :=
  [1116352408, 1899447441, 3049323471, 3921009573, 961987163,
   1508970993, 2453635748, 2870763221, 3624381080, 310598401,
   607225278, 1426881987, 1925078388, 2162078206, 2614888103,
   3248222580, 3835390401, 4022224774, 264347078, 604807628,
   770255983, 1249150122, 1555081692, 1996064986, 2554220882,
   2821834349, 2952996808, 3210313671, 3336571891, 3584528711,
   113926993, 338241895, 666307205, 773529912, 1294757372,
   1396182291, 1695183700, 1986661051, 2177026350, 2456956037,
   2730485921, 2820302411, 3259730800, 3345764771, 3516065817,
   3600352804, 4094571909, 275423344, 430227734, 506948616,
   659060556, 883997877, 958139571, 1322822218, 1537002063,
   1747873779, 1955562222, 2024104815, 2227730452, 2361852424,
   2428436474, 2756734187, 3204031479, 3329325298]

/-- The eight SHA-256 initial hash words, in decimal. -/
def H0 : List Nat :=
  [1779033703, 3144134277, 1013904242, 2773480762,
   1359893119, 2600822924, 528734635, 1541459225]

/-- Pad a byte sequence per SHA-256: append `0x80`, zeros until the length is
56 mod 64, then the bit length as a big-endian 64-bit integer.  The zero
count is `(55 - len) mod 64` computed as `(119 - len % 64) % 64` so that the
subtraction never truncates (`len % 64 ≤ 63 < 119`). -/
def pad (msg : List Nat) : List Nat :=
  let len := msg.length
  let bitLen := len * 8
  let zeros := (119 - (len % 64)) % 64
  msg ++ [0x80] ++ List.replicate zeros 0 ++
    [(bitLen >>> 56) % 256, (bitLen >>> 48) % 256, (bitLen >>> 40) % 256,
     (bitLen >>> 32) % 256, (bitLen >>> 24) % 256, (bitLen >>> 16) % 256,
     (bitLen >>> 8) % 256, bitLen % 256]

/-- Split a list into 64-byte chunks; `fuel` bounds the recursion so that the
definition is structural and evaluates by kernel reduction. -/
def chunksAux : Nat → List Nat → List (List Nat)
  | 0, _ => []
  | fuel + 1, l => if l = [] then [] else l.take 64 :: chunksAux fuel (l.drop 64)

def chunks64 (l : List Nat) : List (List Nat) := chunksAux l.length l

/-- Big-endian 32-bit words from 4-byte groups. -/
def toWords : List Nat → List Nat
  | b0 :: b1 :: b2 :: b3 :: rest => (b0 <<< 24 ||| b1 <<< 16 ||| b2 <<< 8 ||| b3) :: toWords rest
  | _ => []

/-- Message schedule: extend the 16 block words to 64, one new word per step
of the fuel argument. -/
def extendSchedule : Nat → Array Nat → Array Nat
  | 0, w => w
  | n + 1, w =>
    let t := w.size
    let h2 := w.getD (t - 2) 0
    let h7 := w.getD (t - 7) 0
    let h15 := w.getD (t - 15) 0
    let h16 := w.getD (t - 16) 0
    extendSchedule n (w.push ((smallSigma1 h2 + h7 + smallSigma0 h15 + h16) % w32))

/-- One round of the compression function. -/
def round (st : List Nat) (kt wt : Nat) : List Nat :=
  match st with
  | [a, b, c, d, e, f, g, h] =>
    let t1 := (h + bigSigma1 e + ch e f g + kt + wt) % w32
    let t2 := (bigSigma0 a + maj a b c) % w32
    [(t1 + t2) % w32, a, b, c, (d + t1) % w32, e, f, g]
  | st => st

/-- Compress one 64-byte block into the hash state. -/
def compress (h : List Nat) (block : List Nat) : List Nat :=
  let w := extendSchedule 48 (toWords block).toArray
  let final := (List.zip K w.toList).foldl (fun st p => round st p.1 p.2) h
  List.zipWith add32 h final

def sha256Words (msg : List Nat) : List Nat :=
  (chunks64 (pad msg)).foldl compress H0

def hexDigit (n : Nat) : Char :=
  if n < 10 then Char.ofNat (48 + n) else Char.ofNat (87 + n)

def wordToHex (x : Nat) : List Char :=
  [hexDigit ((x >>> 28) % 16), hexDigit ((x >>> 24) % 16),
   hexDigit ((x >>> 20) % 16), hexDigit ((x >>> 16) % 16),
   hexDigit ((x >>> 12) % 16), hexDigit ((x >>> 8) % 16),
   hexDigit ((x >>> 4) % 16), hexDigit (x % 16)]

/-- Hex digest of the SHA-256 of a byte sequence, as in
`hashlib.sha256(b).hexdigest()`. -/
def hexdigest (msg : List Nat) : String :=
  String.mk ((sha256Words msg).map wordToHex).flatten

end SHA256

/-- UTF-8 encoding of one code point, as in Python `str.encode("utf-8")`. -/
def utf8EncodeChar (c : Char) : List Nat :=
  let cp := c.toNat
  if cp < 0x80 then [cp]
  else if cp < 0x800 then
    [0xC0 ||| (cp >>> 6), 0x80 ||| (cp &&& 0x3F)]
  else if cp < 0x10000 then
    [0xE0 ||| (cp >>> 12), 0x80 ||| ((cp >>> 6) &&& 0x3F), 0x80 ||| (cp &&& 0x3F)]
  else
    [0xF0 ||| (cp >>> 18), 0x80 ||| ((cp >>> 12) &&& 0x3F),
     0x80 ||| ((cp >>> 6) &&& 0x3F), 0x80 ||| (cp &&& 0x3F)]

/-- UTF-8 byte sequence of a string (Python `texto.encode("utf-8")`). -/
def utf8Encode (s : String) : List Nat :=
  (s.data.map utf8EncodeChar).flatten

/-- Sanity check against the FIPS 180-2 test vector for "abc". -/
example :
    SHA256.hexdigest (utf8Encode "abc") =
      "ba7816bf8f01cfea414140de5dae2223b00361a396177a9cb410ff61f20015ad" := by
  decide

/-- Padding boundary check: 55 input bytes (zero padding zeros). -/
example :
    SHA256.hexdigest (List.replicate 55 97) =
      "9f4390f8d30c2dd92ec9f095b65e2b9ae9b0a925a5258e241c9f1e910f734318" := by
  decide

/-- Padding boundary check: 56 input bytes (the length field overflows into a
second block). -/
example :
    SHA256.hexdigest (List.replicate 56 97) =
      "b35439a4ac6f0948b6d6f9e3c6af0f5f590ce20f1bde7090ef7970686ec6738a" := by
  decide

/-- Padding boundary check: 63 input bytes. -/
example :
    SHA256.hexdigest (List.replicate 63 97) =
      "7d3e74a05d7db15bce4ad9ec0658ea98e3f06eeecf16b4c6fff2da457ddc2f34" := by
  decide

/-- Padding boundary check: 64 input bytes (one full block plus padding). -/
example :
    SHA256.hexdigest (List.replicate 64 97) =
      "ffe054fe7ae0cb6dc65c3af9b61d5209f439851db43d0ba5997337df154668eb" := by
  decide

/-! ## Python value embedding

Values produced by `json.loads` on the extractor output: `None`, strings,
integers, booleans, lists and dictionaries. -/

inductive PyVal where
  | none
  | str (s : String)
  | int (n : Int)
  | bool (b : Bool)
  | list (elems : List PyVal)
  | dict (entries : List (String × PyVal))

/-- Python truthiness, as in `if valor:`. -/
def pyTruthy : PyVal → Bool
  | .none => false
  | .str s => s != ""
  | .int n => n != 0
  | .bool b => b
  | .list l => !l.isEmpty
  | .dict d => !d.isEmpty

/-- The characters Python `str.strip()` removes: exactly those with
`str.isspace()` true (the CPython Unicode whitespace table: `0x09`-`0x0D`,
`0x1C`-`0x1F`, space, NEL, NBSP, Ogham space mark, the `0x2000`-`0x200A`
spaces, line and paragraph separator, narrow no-break space, medium
mathematical space, ideographic space). -/
def isPySpace (c : Char) : Bool :=
  (9 ≤ c.toNat && c.toNat ≤ 13) || (28 ≤ c.toNat && c.toNat ≤ 31) ||
    c.toNat = 32 || c.toNat = 133 || c.toNat = 160 || c.toNat = 5760 ||
    (8192 ≤ c.toNat && c.toNat ≤ 8202) || c.toNat = 8232 || c.toNat = 8233 ||
    c.toNat = 8239 || c.toNat = 8287 || c.toNat = 12288

/-- ASCII case folding of Python `str.lower()`. -/
def pyCharLower (c : Char) : Char :=
  if 65 ≤ c.toNat ∧ c.toNat ≤ 90 then Char.ofNat (c.toNat + 32) else c

/-- Python `s.lower()`. -/
def pyLower (s : String) : String := String.mk (s.data.map pyCharLower)

def pyStripList (l : List Char) : List Char :=
  ((l.dropWhile isPySpace).reverse.dropWhile isPySpace).reverse

/-- Python `s.strip()`: surrounding whitespace removed. -/
def pyStrip (s : String) : String := String.mk (pyStripList s.data)

def backslash : Char := Char.ofNat 92

def singleQuote : Char := Char.ofNat 39

def doubleQuote : Char := Char.ofNat 34

/-- Escaping of one character inside a Python string `repr`. -/
def reprEscapeChar (quote c : Char) : List Char :=
  if c = backslash then [backslash, backslash]
  else if c = quote then [backslash, quote]
  else if c.toNat = 10 then [backslash, Char.ofNat 110]
  else if c.toNat = 13 then [backslash, Char.ofNat 114]
  else if c.toNat = 9 then [backslash, Char.ofNat 116]
  else [c]

/-- Python `repr` of a string: quoted with single quotes (double quotes when
the text itself holds a single quote and no double quote), escaped. -/
def pyReprStr (s : String) : String :=
  let quote := if s.data.contains singleQuote && !s.data.contains doubleQuote
    then doubleQuote else singleQuote
  String.mk (quote :: (s.data.map (reprEscapeChar quote)).flatten ++ [quote])

mutual

/-- Python `repr(valor)`, the form used for elements inside a container. -/
def pyRepr : PyVal → String
  | .none => "None"
  | .str s => pyReprStr s
  | .int n => toString n
  | .bool b => cond b "True" "False"
  | .list l => "[" ++ pyReprElems l ++ "]"
  | .dict d => "\x7b" ++ pyReprEntries d ++ "\x7d"

def pyReprElems : List PyVal → String
  | [] => ""
  | [v] => pyRepr v
  | v :: rest => pyRepr v ++ ", " ++ pyReprElems rest

def pyReprEntries : List (String × PyVal) → String
  | [] => ""
  | [(k, v)] => pyReprStr k ++ ": " ++ pyRepr v
  | (k, v) :: rest => pyReprStr k ++ ": " ++ pyRepr v ++ ", " ++ pyReprEntries rest

end

/-- Python `str(valor)`: identity on strings, `repr`-style on containers. -/
def pyStr : PyVal → String
  | .none => "None"
  | .str s => s
  | .int n => toString n
  | .bool b => cond b "True" "False"
  | .list l => "[" ++ pyReprElems l ++ "]"
  | .dict d => "\x7b" ++ pyReprEntries d ++ "\x7d"

/-- Escaping of one character by `json.dumps` (with `ensure_ascii=False`,
so characters above ASCII are kept as they are). -/
def jsonEscapeChar (c : Char) : List Char :=
  if c = doubleQuote then [backslash, doubleQuote]
  else if c = backslash then [backslash, backslash]
  else if c.toNat = 10 then [backslash, Char.ofNat 110]
  else if c.toNat = 9 then [backslash, Char.ofNat 116]
  else if c.toNat = 13 then [backslash, Char.ofNat 114]
  else if c.toNat = 8 then [backslash, Char.ofNat 98]
  else if c.toNat = 12 then [backslash, Char.ofNat 102]
  else if c.toNat < 32 then
    [backslash, Char.ofNat 117, Char.ofNat 48, Char.ofNat 48,
     SHA256.hexDigit (c.toNat / 16), SHA256.hexDigit (c.toNat % 16)]
  else [c]

def jsonQuote (s : String) : String :=
  String.mk (doubleQuote :: (s.data.map jsonEscapeChar).flatten ++ [doubleQuote])

mutual

/-- Embedding of Python `json.dumps(valor, ensure_ascii=False)` with the
default separators. -/
def jsonDumps : PyVal → String
  | .none => "null"
  | .str s => jsonQuote s
  | .int n => toString n
  | .bool b => cond b "true" "false"
  | .list l => "[" ++ jsonDumpsElems l ++ "]"
  | .dict d => "\x7b" ++ jsonDumpsEntries d ++ "\x7d"

def jsonDumpsElems : List PyVal → String
  | [] => ""
  | [v] => jsonDumps v
  | v :: rest => jsonDumps v ++ ", " ++ jsonDumpsElems rest

def jsonDumpsEntries : List (String × PyVal) → String
  | [] => ""
  | [(k, v)] => jsonQuote k ++ ": " ++ jsonDumps v
  | (k, v) :: rest => jsonQuote k ++ ": " ++ jsonDumps v ++ ", " ++ jsonDumpsEntries rest

end

/-- The extracted-field mapping handed to the store (`campos`): a Python
dictionary from field names to extracted values. -/
abbrev Campos : Type := List (String × PyVal)

/-- Python `campos.get(clave)`: the stored value, or `None` when absent. -/
def dictGet (campos : Campos) (clave : String) : PyVal :=
  match List.find? (fun kv => kv.1 == clave) campos with
  | some kv => kv.2
  | Option.none => .none

/-- Python `campos.values()` as a list, in insertion order. -/
def dictValues (campos : Campos) : List PyVal := List.map Prod.snd campos

/-! ## Embedding of `database.py` -/

/-- Hex SHA-256 of the UTF-8 encoding of the text
(`sha256(texto.encode("utf-8")).hexdigest()`). -/
def generar_hash_mensaje (texto : String) : String :=
  SHA256.hexdigest (utf8Encode texto)

/-- One row of the `mensajes` table (the ingestion timestamp is left to the
retrieval layer and not part of this embedding). -/
structure Registro where
  texto : String
  pais : Option String
  ciudad : Option String
  fecha_inicio : Option String
  fecha_fin : Option String
  fecha_limite_inscripcion : Option String
  tematica : Option String
  infopack : Option String
  formulario : Option String
  contacto : Option String
  canal : String
  hash : String
deriving DecidableEq

/-- The `mensajes` table, rows in insertion order. -/
abbrev Store : Type := List Registro

/-- `SELECT id FROM mensajes WHERE hash=?` returned a row. -/
def mensaje_ya_existe (store : Store) (hash_mensaje : String) : Bool :=
  store.any (fun r => r.hash == hash_mensaje)

/-- Embedding of `database.entrada_valida`: some value is truthy and does not
strip-and-lowercase to the sentinel. -/
def entrada_valida (campos : Campos) : Bool :=
  (dictValues campos).any
    (fun valor => pyTruthy valor && (pyLower (pyStrip (pyStr valor)) != "unknown"))

/-- Embedding of `database.limpiar_campo_extraido`. -/
def limpiar_campo_extraido : PyVal → Option String
  | .none => Option.none
  | .dict d => some (jsonDumps (.dict d))
  | .list l => some (String.intercalate ", " (l.map pyStr))
  | v =>
    let valor_limpio := pyStrip (pyStr v)
    if valor_limpio = "" then Option.none else some valor_limpio

/-- The row built by the INSERT statement of `database.insertar_mensaje_bd`. -/
def nuevoRegistro (mensaje_original canal : String) (campos : Campos)
    (hash_mensaje : String) : Registro :=
  { texto := mensaje_original
  , pais := limpiar_campo_extraido (dictGet campos "pais")
  , ciudad := limpiar_campo_extraido (dictGet campos "ciudad")
  , fecha_inicio := limpiar_campo_extraido (dictGet campos "fecha_inicio")
  , fecha_fin := limpiar_campo_extraido (dictGet campos "fecha_fin")
  , fecha_limite_inscripcion :=
      limpiar_campo_extraido (dictGet campos "fecha_limite_inscripcion")
  , tematica := limpiar_campo_extraido (dictGet campos "tematica")
  , infopack := limpiar_campo_extraido (dictGet campos "infopack")
  , formulario := limpiar_campo_extraido (dictGet campos "formulario")
  , contacto := limpiar_campo_extraido (dictGet campos "contacto")
  , canal := canal
  , hash := hash_mensaje }

/-- Embedding of `database.insertar_mensaje_bd`: the validity gate, then an
INSERT whose UNIQUE constraint on `hash` raises `IntegrityError` when the
fingerprint is already stored, which is caught and turned into `False` with
the table unchanged. -/
def insertar_mensaje_bd (store : Store) (mensaje_original canal : String)
    (campos : Campos) : Store × Bool :=
  if !entrada_valida campos then (store, false)
  else
    let hash_mensaje := generar_hash_mensaje mensaje_original
    if mensaje_ya_existe store hash_mensaje then (store, false)
    else (store ++ [nuevoRegistro mensaje_original canal campos hash_mensaje], true)

namespace Bot

/-- Embedding of `whatsapp_bot.insertar_mensaje_bd`: same INSERT and
`IntegrityError` handling, but no validity gate and no return value. -/
def insertar_mensaje_bd (store : Store) (texto_mensaje canal : String)
    (campos_extraidos : Campos) : Store :=
  let hash_mensaje := generar_hash_mensaje texto_mensaje
  if mensaje_ya_existe store hash_mensaje then store
  else store ++ [nuevoRegistro texto_mensaje canal campos_extraidos hash_mensaje]

end Bot

/-! ## Embedding of the per-message ingestion loops

`modules/scraper.py` and `whatsapp_bot.py` both iterate over the fetched
batch; the field extractor is an external collaborator and enters the
embedding as an oracle function.  Each loop state additionally records the
list of messages the extractor was invoked on (`llamadas`), the caught
per-message exceptions (`errores`, monolith version only) and the messages
handled so far (`procesados`), so that claims about calls, logging and
batch completion can be stated. -/

namespace Scraper

structure Resultado where
  store : Store
  nuevos : Nat
  llamadas : List String
deriving DecidableEq

/-- Embedding of the message loop of `scraper.ejecutar_scraping_completo`.
Note line 19 of the source passes the RAW message to `mensaje_ya_existe`
(`if mensaje_ya_existe(mensaje)`), so the pre-check compares the raw text
against the `hash` column — it does not test the message's fingerprint.
Otherwise: extract and insert, counting only inserts that return `True`. -/
def procesar_mensajes (extraer : String → Campos) (canal : String) :
    List String → Resultado → Resultado
  | [], acc => acc
  | mensaje :: resto, acc =>
    if mensaje_ya_existe acc.store mensaje then
      procesar_mensajes extraer canal resto acc
    else
      let datos := extraer mensaje
      let resultado := insertar_mensaje_bd acc.store mensaje canal datos
      procesar_mensajes extraer canal resto
        { store := resultado.1
        , nuevos := if resultado.2 then acc.nuevos + 1 else acc.nuevos
        , llamadas := acc.llamadas ++ [mensaje] }

/-- Modelled from the spec: the same loop with the prior existence check
removed — every message is extracted and handed to `insertar_mensaje_bd`,
and duplicate rejection relies solely on the unique-identity constraint
(the spec calls the pre-check "only an optimization to skip expensive
extraction"). -/
def procesar_mensajes_sin_precheck (extraer : String → Campos) (canal : String) :
    List String → Resultado → Resultado
  | [], acc => acc
  | mensaje :: resto, acc =>
    let datos := extraer mensaje
    let resultado := insertar_mensaje_bd acc.store mensaje canal datos
    procesar_mensajes_sin_precheck extraer canal resto
      { store := resultado.1
      , nuevos := if resultado.2 then acc.nuevos + 1 else acc.nuevos
      , llamadas := acc.llamadas ++ [mensaje] }

/-- Embedding of `scraper.scraping_hasta_no_haber_nuevos`: the state of the
world (database plus whatever the collaborators see) is abstract, one
ingestion cycle is the oracle `ciclo`, returning the next state and the
cycle's success flag — which this version of the loop discards, exactly as
the source discards the result of `ejecutar_scraping_completo()` — and
`cuenta` is `len(obtener_mensajes_del_dia())`.  Returns the final state and
the number of cycles executed. -/
def scraping_aux {σ : Type} (ciclo : σ → σ × Bool) (cuenta : σ → Nat) :
    Nat → Nat → σ → σ × Nat
  | 0, _, s => (s, 0)
  | n + 1, anteriores, s =>
    let s' := (ciclo s).1
    let actuales := cuenta s'
    if actuales = anteriores then (s', 1)
    else
      let r := scraping_aux ciclo cuenta n actuales s'
      (r.1, r.2 + 1)

def scraping_hasta_no_haber_nuevos {σ : Type} (ciclo : σ → σ × Bool)
    (cuenta : σ → Nat) (max_intentos : Nat) (s : σ) : σ × Nat :=
  scraping_aux ciclo cuenta max_intentos (cuenta s) s

end Scraper

namespace Bot

structure ResultadoLote where
  store : Store
  nuevos : Nat
  llamadas : List String
  errores : List (String × String)
  procesados : List String
deriving DecidableEq

/-- Embedding of the message loop of `whatsapp_bot.ejecutar_scraping_completo`:
the body of the per-message `try` computes the fingerprint, skips stored
messages, otherwise extracts and inserts (this version counts the message as
new whether or not the insert stored a row).  The extractor oracle returns
`Except`: an `error` result stands for an exception raised while processing
the message, which the `except` clause catches, logs and turns into
`continue`. -/
def procesar_mensajes (extraer : String → Except String Campos) (canal : String) :
    List String → ResultadoLote → ResultadoLote
  | [], acc => acc
  | mensaje :: resto, acc =>
    let acc' :=
      if mensaje_ya_existe acc.store (generar_hash_mensaje mensaje) then
        { acc with procesados := acc.procesados ++ [mensaje] }
      else
        match extraer mensaje with
        | .error e =>
          { acc with
            llamadas := acc.llamadas ++ [mensaje]
            errores := acc.errores ++ [(mensaje, e)]
            procesados := acc.procesados ++ [mensaje] }
        | .ok campos =>
          { store := Bot.insertar_mensaje_bd acc.store mensaje canal campos
            nuevos := acc.nuevos + 1
            llamadas := acc.llamadas ++ [mensaje]
            errores := acc.errores
            procesados := acc.procesados ++ [mensaje] }
    procesar_mensajes extraer canal resto acc'

/-- Embedding of `whatsapp_bot.scraping_hasta_no_haber_nuevos`: cycles are an
oracle returning the next state and the cycle's success flag; the loop breaks
on a failed cycle and ends when a cycle adds no new today-records or the
attempt budget runs out.  Returns the final state and the list of success
flags of the executed cycles, in order. -/
def scraping_aux {σ : Type} (ciclo : σ → σ × Bool) (cuenta : σ → Nat) :
    Nat → σ → σ × List Bool
  | 0, s => (s, [])
  | n + 1, s =>
    let antes := cuenta s
    let paso := ciclo s
    if paso.2 then
      if antes < cuenta paso.1 then
        let r := scraping_aux ciclo cuenta n paso.1
        (r.1, true :: r.2)
      else (paso.1, [true])
    else (paso.1, [false])

def scraping_hasta_no_haber_nuevos {σ : Type} (ciclo : σ → σ × Bool)
    (cuenta : σ → Nat) (max_intentos : Nat) (s : σ) : σ × List Bool :=
  scraping_aux ciclo cuenta max_intentos s

end Bot

/-- Embedding of `utils.limpiar_texto_unicode` (identical in
`whatsapp_bot.py`): keep exactly the characters whose code point fits in
16 bits. -/
def limpiar_texto_unicode (texto : String) : String :=
  String.mk (texto.data.filter (fun c => c.toNat ≤ 0xFFFF))

/-! ## Sanity checks of the embedding on concrete values -/

example : limpiar_campo_extraido (.str "  hola  ") = some "hola" := by decide

example : limpiar_campo_extraido (.str "   ") = Option.none := by decide

example : pyStrip "  x  " = "x" := by decide

example : limpiar_campo_extraido (.str " ") = Option.none := by decide

example : limpiar_campo_extraido (.list [.str "a", .int 2]) = some "a, 2" := by decide

example :
    jsonDumps (.dict [("a", .str "x"), ("b", .list [.int 1, .none])]) =
      "\x7b\"a\": \"x\", \"b\": [1, null]\x7d" := by decide

example : entrada_valida [("pais", .str "UNKNOWN"), ("ciudad", .none)] = false := by
  decide

example : entrada_valida [("pais", .str " Unknown ")] = false := by decide

example : entrada_valida [("pais", .str " unknown "), ("ciudad", .str "Madrid")] = true := by
  decide

/-! ## Predicates used to state the claims -/

/-- A structured field value the spec calls unusable: `null`, or the literal
string "unknown" compared case-insensitively. -/
def esDesconocido : PyVal → Bool
  | .none => true
  | .str u => pyLower u == "unknown"
  | _ => false

/-- A scalar extracted value: neither `None` nor a container. -/
def esEscalar : PyVal → Bool
  | .none => false
  | .dict _ => false
  | .list _ => false
  | _ => true

/-- Store invariant: every row's `hash` column holds the fingerprint of its
`texto` column, as does every row written by `insertar_mensaje_bd`. -/
def hashes_correctos (store : Store) : Bool :=
  store.all (fun r => r.hash == generar_hash_mensaje r.texto)

/-! ## Helper lemmas -/

lemma pyCharLower_of_isPySpace {c : Char} (h : isPySpace c = true) :
    pyCharLower c = c := by
  have hn : ¬(65 ≤ c.toNat ∧ c.toNat ≤ 90) := by
    simp only [isPySpace, Bool.or_eq_true, Bool.and_eq_true,
      decide_eq_true_eq] at h
    omega
  simp [pyCharLower, hn]

lemma dropWhile_eq_self_of_forall {p : Char → Bool} (l : List Char)
    (h : ∀ c ∈ l, p c = false) : l.dropWhile p = l := by
  cases l with
  | nil => rfl
  | cons c cs =>
    rw [List.dropWhile_cons, h c (List.mem_cons_self c cs)]
    simp

lemma pyStripList_eq_self {l : List Char} (h : ∀ c ∈ l, isPySpace c = false) :
    pyStripList l = l := by
  unfold pyStripList
  rw [dropWhile_eq_self_of_forall l h,
    dropWhile_eq_self_of_forall l.reverse (fun c hc => h c (List.mem_reverse.mp hc)),
    List.reverse_reverse]

lemma pyStrip_of_pyLower_unknown {u : String} (h : pyLower u = "unknown") :
    pyStrip u = u := by
  have hchars : ∀ c ∈ u.data, isPySpace c = false := by
    intro c hc
    by_contra hsp
    rw [Bool.not_eq_false] at hsp
    have h1 : pyCharLower c = c := pyCharLower_of_isPySpace hsp
    have h2 : pyCharLower c ∈ (pyLower u).data := by
      simp only [pyLower]
      exact List.mem_map_of_mem pyCharLower hc
    rw [h, h1] at h2
    have hns : ∀ c ∈ "unknown".data, isPySpace c = false := by decide
    rw [hns c h2] at hsp
    exact Bool.false_ne_true hsp
  unfold pyStrip
  rw [pyStripList_eq_self hchars]

/-! ## Claim C3: fingerprint determinism and algorithm -/

/-- C3: the fingerprint function is pure and equals the hexadecimal SHA-256
digest of the UTF-8 encoding of the raw text taken verbatim; identical
inputs give identical digests, and no trimming happens (adding surrounding
whitespace changes the digest). -/
theorem C3_fingerprint_determinista :
    (∀ texto : String, generar_hash_mensaje texto = SHA256.hexdigest (utf8Encode texto)) ∧
    (∀ s t : String, s = t → generar_hash_mensaje s = generar_hash_mensaje t) ∧
    generar_hash_mensaje " abc" ≠ generar_hash_mensaje "abc" := by
  refine ⟨fun _ => rfl, fun s t h => by rw [h], ?_⟩
  decide

/-- Witness for C3 at a concrete input. -/
theorem C3_fingerprint_determinista_witness :
    generar_hash_mensaje "Evento en Madrid" = generar_hash_mensaje "Evento en Madrid" :=
  C3_fingerprint_determinista.2.1 "Evento en Madrid" "Evento en Madrid" rfl

/-! ## Claim C9: normalization policy -/

/-- C9: the normalizer maps `None` to `None`, a key-value mapping to its
JSON-style textual serialization, a sequence to its elements joined into one
comma-separated string, and a scalar to its string form trimmed of
surrounding whitespace, empty-after-trim becoming `None`. -/
theorem C9_politica_normalizacion :
    limpiar_campo_extraido PyVal.none = Option.none ∧
    (∀ d, limpiar_campo_extraido (PyVal.dict d) = some (jsonDumps (PyVal.dict d))) ∧
    (∀ l, limpiar_campo_extraido (PyVal.list l) =
      some (String.intercalate ", " (l.map pyStr))) ∧
    (∀ v, esEscalar v = true →
      limpiar_campo_extraido v =
        (if pyStrip (pyStr v) = "" then Option.none else some (pyStrip (pyStr v)))) := by
  refine ⟨rfl, fun d => rfl, fun l => rfl, fun v hv => ?_⟩
  cases v with
  | none => exact absurd hv (by decide)
  | dict d => exact absurd hv (by simp [esEscalar])
  | list l => exact absurd hv (by simp [esEscalar])
  | str s => rfl
  | int n => rfl
  | bool b => rfl

/-- Witness for C9 at a concrete scalar. -/
theorem C9_politica_normalizacion_witness :
    esEscalar (PyVal.str " Madrid ") = true ∧
    limpiar_campo_extraido (PyVal.str " Madrid ") =
      (if pyStrip (pyStr (PyVal.str " Madrid ")) = "" then Option.none
       else some (pyStrip (pyStr (PyVal.str " Madrid ")))) :=
  ⟨by decide, C9_politica_normalizacion.2.2.2 (PyVal.str " Madrid ") (by decide)⟩

/-! ## Claim C10: pre-send unicode filter -/

/-- C10: the pre-send unicode filter returns exactly the characters whose
code point is at most `0xFFFF`, in their original order (an order-preserving
subsequence of the input); it is the identity on strings containing only
such characters, and it is idempotent. -/
theorem C10_filtro_unicode :
    (∀ texto : String,
      (limpiar_texto_unicode texto).data =
        texto.data.filter (fun c => c.toNat ≤ 0xFFFF)) ∧
    (∀ texto : String, (limpiar_texto_unicode texto).data.Sublist texto.data) ∧
    (∀ texto : String, (∀ c ∈ texto.data, c.toNat ≤ 0xFFFF) →
      limpiar_texto_unicode texto = texto) ∧
    (∀ texto : String,
      limpiar_texto_unicode (limpiar_texto_unicode texto) = limpiar_texto_unicode texto) := by
  have hdata : ∀ texto : String,
      (limpiar_texto_unicode texto).data =
        texto.data.filter (fun c => c.toNat ≤ 0xFFFF) := fun _ => rfl
  have hid : ∀ texto : String, (∀ c ∈ texto.data, c.toNat ≤ 0xFFFF) →
      limpiar_texto_unicode texto = texto := by
    intro texto h
    have : texto.data.filter (fun c => c.toNat ≤ 0xFFFF) = texto.data :=
      List.filter_eq_self.mpr (fun c hc => by simpa using h c hc)
    unfold limpiar_texto_unicode
    rw [this]
  refine ⟨hdata, fun texto => List.filter_sublist _, hid, fun texto => ?_⟩
  apply hid
  intro c hc
  rw [hdata texto] at hc
  simpa using (List.mem_filter.mp hc).2

/-- Witness for C10 at a concrete all-BMP input. -/
theorem C10_filtro_unicode_witness :
    (∀ c ∈ "hola".data, c.toNat ≤ 0xFFFF) ∧ limpiar_texto_unicode "hola" = "hola" :=
  ⟨by decide, C10_filtro_unicode.2.2.1 "hola" (by decide)⟩

/-! ## Claim C2: validity gate

`database.entrada_valida` gates `database.insertar_mensaje_bd`, but the
monolith insert (`whatsapp_bot.insertar_mensaje_bd`) has no such gate and
stores whatever row has a fresh fingerprint. -/

/-- The original C2 is false for the monolith insert it cites: an
all-unknown mapping with a fresh fingerprint is stored — the store is not
left unchanged. -/
theorem C2_contraejemplo :
    (dictValues [("pais", PyVal.none), ("ciudad", PyVal.str "unknown")]).all
      esDesconocido = true ∧
    Bot.insertar_mensaje_bd [] "Evento" "c"
      [("pais", PyVal.none), ("ciudad", PyVal.str "unknown")] ≠ ([] : Store) :=
  ⟨by decide, by decide⟩

/-- C2: when every structured field value is `null` or the literal string
"unknown" compared case-insensitively, the entry fails the validity rule and
the modules insert (`database.insertar_mensaje_bd`) stores nothing — the
store is returned unchanged with `false`, whatever the store, text, channel
and number of fields.  The monolith insert
(`whatsapp_bot.insertar_mensaje_bd`) has no validity gate: whenever the
fingerprint is fresh it appends the row, whatever the mapping. -/
theorem C2_puerta_validez :
    (∀ campos : Campos, (dictValues campos).all esDesconocido = true →
      entrada_valida campos = false ∧
      ∀ (store : Store) (texto canal : String),
        insertar_mensaje_bd store texto canal campos = (store, false)) ∧
    (∀ (campos : Campos) (store : Store) (texto canal : String),
      mensaje_ya_existe store (generar_hash_mensaje texto) = false →
      Bot.insertar_mensaje_bd store texto canal campos =
        store ++ [nuevoRegistro texto canal campos (generar_hash_mensaje texto)]) := by
  constructor
  case right =>
    intro campos store texto canal hex
    simp [Bot.insertar_mensaje_bd, hex]
  intro campos h
  have hval : entrada_valida campos = false := by
    unfold entrada_valida
    rw [List.any_eq_false]
    intro valor hv
    have hd : esDesconocido valor = true := List.all_eq_true.mp h valor hv
    cases valor with
    | none => simp [pyTruthy]
    | str u =>
      have hu : pyLower u = "unknown" := by simpa [esDesconocido] using hd
      by_cases he : u = ""
      · subst he; simp [pyTruthy]
      · have hs : pyStrip u = u := pyStrip_of_pyLower_unknown hu
        simp [pyTruthy, pyStr, hs, hu, he]
    | int n => simp [esDesconocido] at hd
    | bool b => simp [esDesconocido] at hd
    | list l => simp [esDesconocido] at hd
    | dict d => simp [esDesconocido] at hd
  exact ⟨hval, fun store texto canal => by simp [insertar_mensaje_bd, hval]⟩

/-- Witness for C2: a two-field mapping of `None` and "Unknown" is rejected
by the modules insert and stored by the monolith insert. -/
theorem C2_puerta_validez_witness :
    (dictValues [("pais", PyVal.none), ("ciudad", PyVal.str "Unknown")]).all
      esDesconocido = true ∧
    insertar_mensaje_bd [] "Evento X" "canal"
      [("pais", PyVal.none), ("ciudad", PyVal.str "Unknown")] = ([], false) ∧
    mensaje_ya_existe ([] : Store) (generar_hash_mensaje "Evento X") = false ∧
    Bot.insertar_mensaje_bd [] "Evento X" "canal"
        [("pais", PyVal.none), ("ciudad", PyVal.str "Unknown")] =
      [] ++ [nuevoRegistro "Evento X" "canal"
        [("pais", PyVal.none), ("ciudad", PyVal.str "Unknown")]
        (generar_hash_mensaje "Evento X")] :=
  ⟨by decide,
   (C2_puerta_validez.1 [("pais", PyVal.none), ("ciudad", PyVal.str "Unknown")]
     (by decide)).2 [] "Evento X" "canal",
   by decide,
   C2_puerta_validez.2 [("pais", PyVal.none), ("ciudad", PyVal.str "Unknown")]
     [] "Evento X" "canal" (by decide)⟩

/-! ## Claim C1: idempotent insert -/

/-- C1: for a mapping that passes the validity rule, against a store whose
hashes are the fingerprints of their texts and that does not yet hold the
message fingerprint, the first insert returns `true`; inserting the same raw
text a second time returns `false` and leaves the store unchanged, and the
store then holds exactly one record whose `raw_text` is that text. -/
theorem C1_insercion_idempotente (store : Store) (texto canal : String)
    (campos : Campos)
    (hv : entrada_valida campos = true)
    (hinv : hashes_correctos store = true)
    (hnuevo : mensaje_ya_existe store (generar_hash_mensaje texto) = false) :
    (insertar_mensaje_bd store texto canal campos).2 = true ∧
    insertar_mensaje_bd (insertar_mensaje_bd store texto canal campos).1
        texto canal campos =
      ((insertar_mensaje_bd store texto canal campos).1, false) ∧
    ((insertar_mensaje_bd store texto canal campos).1.filter
        (fun r => r.texto == texto)).length = 1 := by
  have h1 : insertar_mensaje_bd store texto canal campos =
      (store ++ [nuevoRegistro texto canal campos (generar_hash_mensaje texto)],
        true) := by
    simp [insertar_mensaje_bd, hv, hnuevo]
  have hex : mensaje_ya_existe
      (store ++ [nuevoRegistro texto canal campos (generar_hash_mensaje texto)])
      (generar_hash_mensaje texto) = true := by
    simp [mensaje_ya_existe, List.any_append, nuevoRegistro]
  have h3 : store.filter (fun r => r.texto == texto) = [] := by
    rw [List.filter_eq_nil_iff]
    intro r hr hq
    have hh : r.hash = generar_hash_mensaje r.texto := by
      simpa using List.all_eq_true.mp hinv r hr
    have ht : r.texto = texto := by simpa using hq
    have hcontra : mensaje_ya_existe store (generar_hash_mensaje texto) = true := by
      unfold mensaje_ya_existe
      rw [List.any_eq_true]
      exact ⟨r, hr, by simp [hh, ht]⟩
    rw [hcontra] at hnuevo
    exact Bool.noConfusion hnuevo
  refine ⟨by rw [h1], ?_, ?_⟩
  · rw [h1]
    simp only []
    simp [insertar_mensaje_bd, hv, hex]
  · rw [h1]
    simp [List.filter_append, h3, nuevoRegistro]

/-- Witness for C1: inserting one concrete message twice into the empty
store; the second insert is rejected and changes nothing. -/
theorem C1_insercion_idempotente_witness :
    insertar_mensaje_bd
        (insertar_mensaje_bd [] "Evento en Madrid" "canal"
          [("ciudad", PyVal.str "Madrid")]).1
        "Evento en Madrid" "canal" [("ciudad", PyVal.str "Madrid")] =
      ((insertar_mensaje_bd [] "Evento en Madrid" "canal"
          [("ciudad", PyVal.str "Madrid")]).1, false) :=
  (C1_insercion_idempotente [] "Evento en Madrid" "canal"
    [("ciudad", PyVal.str "Madrid")] (by decide) (by decide) (by decide)).2.1

/-! ## Claim C4: skip on existing fingerprint

`whatsapp_bot.py` lines 657-663 implement the claimed step: compute the
fingerprint, then skip when it is stored, without calling the extractor.
`scraper.py` line 19 instead hands the RAW message to `mensaje_ya_existe`,
whose query compares its argument against the `hash` column, so the modules
loop never skips a message because its fingerprint is stored and always
calls the extractor for it; only the unique constraint of the insert then
rejects the duplicate. -/

/-- C4 evaluated at the failing input: a store already holding the record of
"Evento" (hash column = its fingerprint).  The modules loop does not skip
the repeated message — the extractor is invoked on it, against the claim —
though the constraint still keeps the store unchanged and the new-count at
zero.  The monolith loop behaves as the claim (and the spec) say: it skips
the message without invoking the extractor. -/
theorem C4_prechequeo_roto :
    mensaje_ya_existe
        [nuevoRegistro "Evento" "c" [] (generar_hash_mensaje "Evento")]
        (generar_hash_mensaje "Evento") = true ∧
    (Scraper.procesar_mensajes (fun _ => []) "c" ["Evento"]
        ⟨[nuevoRegistro "Evento" "c" [] (generar_hash_mensaje "Evento")],
          0, []⟩).llamadas = ["Evento"] ∧
    (Scraper.procesar_mensajes (fun _ => []) "c" ["Evento"]
        ⟨[nuevoRegistro "Evento" "c" [] (generar_hash_mensaje "Evento")],
          0, []⟩).store =
      [nuevoRegistro "Evento" "c" [] (generar_hash_mensaje "Evento")] ∧
    (Scraper.procesar_mensajes (fun _ => []) "c" ["Evento"]
        ⟨[nuevoRegistro "Evento" "c" [] (generar_hash_mensaje "Evento")],
          0, []⟩).nuevos = 0 ∧
    (Bot.procesar_mensajes (fun _ => Except.ok []) "c" ["Evento"]
        ⟨[nuevoRegistro "Evento" "c" [] (generar_hash_mensaje "Evento")],
          0, [], [], []⟩).llamadas = [] ∧
    (Bot.procesar_mensajes (fun _ => Except.ok []) "c" ["Evento"]
        ⟨[nuevoRegistro "Evento" "c" [] (generar_hash_mensaje "Evento")],
          0, [], [], []⟩).store =
      [nuevoRegistro "Evento" "c" [] (generar_hash_mensaje "Evento")] := by
  decide

/-! ## Claim C5: per-message failure isolation

Only the monolith loop (`whatsapp_bot.py` lines 656-672) has a per-message
`try`/`except`.  The modules loop (`scraper.py` lines 18-29) has none: an
exception in a message's processing — its extractor swallows its own, but
`insertar_mensaje_bd` catches only `IntegrityError`, so e.g. a
`sqlite3.OperationalError` escapes — propagates to the cycle-level handler
and ends the batch. -/

/-- C5, amended to the monolith loop: every message of the batch is handled
(the processed list always extends by the whole batch, whatever the
extractor does), and a message whose processing raises is caught: its error is
appended to the log for that message, the store and new-count are unchanged
by it, and the loop continues with the remaining messages. -/
theorem C5_aislamiento_por_mensaje :
    (∀ (extraer : String → Except String Campos) (canal : String)
        (lote : List String) (acc : Bot.ResultadoLote),
      (Bot.procesar_mensajes extraer canal lote acc).procesados =
        acc.procesados ++ lote) ∧
    (∀ (extraer : String → Except String Campos) (canal mensaje : String)
        (resto : List String) (acc : Bot.ResultadoLote) (e : String),
      extraer mensaje = Except.error e →
      mensaje_ya_existe acc.store (generar_hash_mensaje mensaje) = false →
      Bot.procesar_mensajes extraer canal (mensaje :: resto) acc =
        Bot.procesar_mensajes extraer canal resto
          { acc with
            llamadas := acc.llamadas ++ [mensaje]
            errores := acc.errores ++ [(mensaje, e)]
            procesados := acc.procesados ++ [mensaje] }) := by
  constructor
  · intro extraer canal lote
    induction lote with
    | nil => intro acc; simp [Bot.procesar_mensajes]
    | cons m resto ih =>
      intro acc
      by_cases h : mensaje_ya_existe acc.store (generar_hash_mensaje m) = true
      · simp [Bot.procesar_mensajes, h, ih]
      · cases hev : extraer m with
        | error e => simp [Bot.procesar_mensajes, h, hev, ih]
        | ok campos => simp [Bot.procesar_mensajes, h, hev, ih]
  · intro extraer canal mensaje resto acc e he hex
    simp [Bot.procesar_mensajes, hex, he]

/-- Witness for C5: a failing extractor on a fresh message is logged and the
loop goes on with the rest. -/
theorem C5_aislamiento_por_mensaje_witness :
    mensaje_ya_existe ([] : Store) (generar_hash_mensaje "a") = false ∧
    Bot.procesar_mensajes (fun _ => Except.error "fallo") "c" ["a", "b"]
        ⟨[], 0, [], [], []⟩ =
      Bot.procesar_mensajes (fun _ => Except.error "fallo") "c" ["b"]
        ⟨[], 0, ["a"], [("a", "fallo")], ["a"]⟩ :=
  ⟨by decide,
   C5_aislamiento_por_mensaje.2 (fun _ => Except.error "fallo") "c" "a" ["b"]
     ⟨[], 0, [], [], []⟩ "fallo" rfl (by decide)⟩

/-- Modelled from the source control flow of
`scraper.ejecutar_scraping_completo` (lines 18-29): the `for` over the batch
has no per-message handler, so a raising step — the loop body is abstracted
as an `Except`-valued oracle, an `error` standing for any exception the body
lets escape, such as a `sqlite3.OperationalError` inside
`insertar_mensaje_bd` — leaves the loop at once for the cycle-level
`except`, and the remaining messages are not handled.  Returns the final
accumulator, the messages handled without raising, and the escaped
exception if any. -/
def bucle_sin_try_por_mensaje
    (paso : String → Scraper.Resultado → Except String Scraper.Resultado) :
    List String → Scraper.Resultado → List String →
      Scraper.Resultado × List String × Option String
  | [], acc, hechos => (acc, hechos, Option.none)
  | mensaje :: resto, acc, hechos =>
    match paso mensaje acc with
    | .error e => (acc, hechos, some e)
    | .ok acc2 => bucle_sin_try_por_mensaje paso resto acc2 (hechos ++ [mensaje])

/-- C5 as stated is false for the modules loop the claim also cites: with a
two-message batch whose first message raises, the exception escapes to the
cycle level and the remaining message "b" is never processed — the handled
list stays empty instead of containing "b". -/
theorem C5_contraejemplo :
    (bucle_sin_try_por_mensaje
        (fun mensaje acc =>
          if mensaje = "a" then Except.error "OperationalError" else Except.ok acc)
        ["a", "b"] ⟨[], 0, []⟩ []).2 = ([], some "OperationalError") := by
  decide

/-! ## Claim C8: existence pre-check is an optimization only

With the pre-check as actually written (raw text compared against the `hash`
column, see C4), removing it is not always store-neutral: a fetched message
whose raw text equals a stored digest is skipped by the pre-check but stored
without it. -/

/-- C8 as stated is false at a concrete input: the store holds the record of
"x"; the batch carries one message whose text is exactly the stored digest
of "x".  With the pre-check the message is skipped; without it, it is
extracted and inserted, so the final stores differ. -/
theorem C8_contraejemplo :
    (Scraper.procesar_mensajes (fun _ => [("ciudad", PyVal.str "Madrid")]) "c"
        [generar_hash_mensaje "x"]
        ⟨[nuevoRegistro "x" "c" [("ciudad", PyVal.str "Madrid")]
            (generar_hash_mensaje "x")], 0, []⟩).store ≠
      (Scraper.procesar_mensajes_sin_precheck
        (fun _ => [("ciudad", PyVal.str "Madrid")]) "c"
        [generar_hash_mensaje "x"]
        ⟨[nuevoRegistro "x" "c" [("ciudad", PyVal.str "Madrid")]
            (generar_hash_mensaje "x")], 0, []⟩).store := by
  decide

lemma round_length (st : List Nat) (kt wt : Nat) :
    (SHA256.round st kt wt).length = st.length := by
  unfold SHA256.round
  split
  · simp
  · rfl

lemma foldl_round_length (l : List (Nat × Nat)) :
    ∀ st : List Nat,
      (l.foldl (fun st p => SHA256.round st p.1 p.2) st).length = st.length := by
  induction l with
  | nil => intro st; rfl
  | cons p resto ih => intro st; rw [List.foldl_cons, ih, round_length]

lemma compress_length (h b : List Nat) (hh : h.length = 8) :
    (SHA256.compress h b).length = 8 := by
  simp [SHA256.compress, List.length_zipWith, foldl_round_length, hh]

lemma foldl_compress_length (l : List (List Nat)) :
    ∀ h : List Nat, h.length = 8 → (l.foldl SHA256.compress h).length = 8 := by
  induction l with
  | nil => intro h hh; simpa using hh
  | cons b resto ih =>
    intro h hh
    rw [List.foldl_cons]
    exact ih _ (compress_length h b hh)

lemma sha256Words_length (msg : List Nat) :
    (SHA256.sha256Words msg).length = 8 :=
  foldl_compress_length _ _ rfl

/-- Every fingerprint the store writes is a 64-character hex digest. -/
lemma generar_hash_length (texto : String) :
    (generar_hash_mensaje texto).length = 64 := by
  have hflat : ∀ ws : List Nat,
      ((ws.map SHA256.wordToHex).flatten).length = 8 * ws.length := by
    intro ws
    induction ws with
    | nil => rfl
    | cons w resto ih =>
      have h8 : (SHA256.wordToHex w).length = 8 := rfl
      simp only [List.map_cons, List.flatten_cons, List.length_append, h8, ih,
        List.length_cons]
      omega
  have hlen : (generar_hash_mensaje texto).length =
      (((SHA256.sha256Words (utf8Encode texto)).map SHA256.wordToHex).flatten).length :=
    rfl
  rw [hlen, hflat, sha256Words_length]

lemma insertar_preserva_hash_len (store : Store) (texto canal : String)
    (campos : Campos) (h : ∀ r ∈ store, r.hash.length = 64) :
    ∀ r ∈ (insertar_mensaje_bd store texto canal campos).1,
      r.hash.length = 64 := by
  intro r hr
  cases hval : entrada_valida campos with
  | false =>
    simp only [insertar_mensaje_bd, hval] at hr
    exact h r (by simpa using hr)
  | true =>
    cases hex : mensaje_ya_existe store (generar_hash_mensaje texto) with
    | true =>
      simp only [insertar_mensaje_bd, hval, hex] at hr
      exact h r (by simpa using hr)
    | false =>
      simp only [insertar_mensaje_bd, hval, hex] at hr
      simp only [Bool.not_true, Bool.false_eq_true, if_false, if_neg,
        List.mem_append, List.mem_singleton] at hr
      rcases hr with hr | hr
      · exact h r hr
      · rw [hr]
        exact generar_hash_length texto

/-- C8 amended: the implemented pre-check compares the raw text to the
`hash` column, so over stores whose hash column holds 64-character digests
and batches of messages that are not 64 characters long — no such message
can equal a stored digest — the pre-check never fires, and removing it
leaves exactly the same final store: duplicate rejection is carried solely
by the unique-constraint insert failure. -/
theorem C8_precheck_es_optimizacion (extraer : String → Campos) (canal : String) :
    ∀ (lote : List String) (acc : Scraper.Resultado),
      (∀ r ∈ acc.store, r.hash.length = 64) →
      (∀ m ∈ lote, m.length ≠ 64) →
      (Scraper.procesar_mensajes extraer canal lote acc).store =
        (Scraper.procesar_mensajes_sin_precheck extraer canal lote acc).store := by
  intro lote
  induction lote with
  | nil => intro acc _ _; rfl
  | cons m resto ih =>
    intro acc hstore hlote
    have hpre : mensaje_ya_existe acc.store m = false := by
      unfold mensaje_ya_existe
      rw [List.any_eq_false]
      intro r hr
      simp only [beq_iff_eq]
      intro heq
      have h64 := hstore r hr
      rw [heq] at h64
      exact hlote m (List.mem_cons_self m resto) h64
    simp only [Scraper.procesar_mensajes, Scraper.procesar_mensajes_sin_precheck,
      hpre, Bool.false_eq_true, if_neg]
    exact ih _
      (insertar_preserva_hash_len acc.store m canal (extraer m) hstore)
      (fun m2 hm2 => hlote m2 (List.mem_cons_of_mem m hm2))

/-- Witness for the amended C8: an empty store and a batch of one ordinary
message (6 characters, so never equal to a digest). -/
theorem C8_precheck_es_optimizacion_witness :
    (∀ r ∈ ([] : Store), r.hash.length = 64) ∧
    (∀ m ∈ ["Evento"], m.length ≠ 64) ∧
    (Scraper.procesar_mensajes (fun _ => [("ciudad", PyVal.str "Madrid")]) "c"
        ["Evento"] ⟨[], 0, []⟩).store =
      (Scraper.procesar_mensajes_sin_precheck
        (fun _ => [("ciudad", PyVal.str "Madrid")]) "c"
        ["Evento"] ⟨[], 0, []⟩).store :=
  ⟨by simp, by decide,
   C8_precheck_es_optimizacion (fun _ => [("ciudad", PyVal.str "Madrid")]) "c"
     ["Evento"] ⟨[], 0, []⟩ (by simp) (by decide)⟩

/-! ## Claim C6: convergence termination -/

/-- The state transformation of one ingestion cycle (its success flag
dropped, as `scraper.scraping_hasta_no_haber_nuevos` drops it). -/
def cicloEstado {σ : Type} (ciclo : σ → σ × Bool) : σ → σ := fun s => (ciclo s).1

lemma scraping_aux_le {σ : Type} (ciclo : σ → σ × Bool) (cuenta : σ → Nat) :
    ∀ (n anteriores : Nat) (s : σ),
      (Scraper.scraping_aux ciclo cuenta n anteriores s).2 ≤ n := by
  intro n
  induction n with
  | zero => intro a s; simp [Scraper.scraping_aux]
  | succ m ih =>
    intro a s
    rw [Scraper.scraping_aux]
    dsimp only
    split
    · simp
    · simpa using Nat.succ_le_succ (ih _ _)

lemma scraping_aux_stop {σ : Type} (ciclo : σ → σ × Bool) (cuenta : σ → Nat) :
    ∀ (k n : Nat) (s : σ), k < n →
      (∀ i < k,
        cuenta ((cicloEstado ciclo)^[i + 1] s) ≠ cuenta ((cicloEstado ciclo)^[i] s)) →
      cuenta ((cicloEstado ciclo)^[k + 1] s) = cuenta ((cicloEstado ciclo)^[k] s) →
      (Scraper.scraping_aux ciclo cuenta n (cuenta s) s).2 = k + 1 := by
  intro k
  induction k with
  | zero =>
    intro n s hk hne hstop
    cases n with
    | zero => omega
    | succ m =>
      rw [Scraper.scraping_aux]
      dsimp only
      have h1 : cuenta (ciclo s).1 = cuenta s := by
        simpa [cicloEstado] using hstop
      rw [if_pos h1]
  | succ k ih =>
    intro n s hk hne hstop
    cases n with
    | zero => omega
    | succ m =>
      rw [Scraper.scraping_aux]
      dsimp only
      have h0 : ¬(cuenta (ciclo s).1 = cuenta s) := by
        have := hne 0 (Nat.succ_pos k)
        simpa [cicloEstado] using this
      rw [if_neg h0]
      have hrec :=
        ih m ((ciclo s).1) (by omega)
          (fun i hi => by
            have := hne (i + 1) (by omega)
            rw [Function.iterate_succ_apply (cicloEstado ciclo) (i + 1) s,
              Function.iterate_succ_apply (cicloEstado ciclo) i s] at this
            simpa [cicloEstado] using this)
          (by
            have := hstop
            rw [Function.iterate_succ_apply (cicloEstado ciclo) (k + 1) s,
              Function.iterate_succ_apply (cicloEstado ciclo) k s] at this
            simpa [cicloEstado] using this)
      simpa using hrec

/-- C6: the modules convergence loop performs at most `max_intentos` cycles,
whatever the cycles do; it stops right after the first cycle that leaves the
today-count unchanged; and the monolith loop likewise executes at most its
attempt bound. -/
theorem C6_terminacion_convergencia {σ : Type} (ciclo : σ → σ × Bool)
    (cuenta : σ → Nat) (max_intentos : Nat) (s : σ) :
    (Scraper.scraping_hasta_no_haber_nuevos ciclo cuenta max_intentos s).2 ≤
      max_intentos ∧
    (∀ k, k < max_intentos →
      (∀ i < k,
        cuenta ((cicloEstado ciclo)^[i + 1] s) ≠ cuenta ((cicloEstado ciclo)^[i] s)) →
      cuenta ((cicloEstado ciclo)^[k + 1] s) = cuenta ((cicloEstado ciclo)^[k] s) →
      (Scraper.scraping_hasta_no_haber_nuevos ciclo cuenta max_intentos s).2 = k + 1) ∧
    (∀ (cicloB : σ → σ × Bool) (n : Nat) (t : σ),
      (Bot.scraping_hasta_no_haber_nuevos cicloB cuenta n t).2.length ≤ n) := by
  refine ⟨scraping_aux_le ciclo cuenta max_intentos (cuenta s) s,
    fun k hk hne hstop => scraping_aux_stop ciclo cuenta k max_intentos s hk hne hstop,
    fun cicloB n => ?_⟩
  induction n with
  | zero => intro t; simp [Bot.scraping_hasta_no_haber_nuevos, Bot.scraping_aux]
  | succ m ih =>
    intro t
    rw [Bot.scraping_hasta_no_haber_nuevos, Bot.scraping_aux]
    dsimp only
    split
    · split
      · simpa using Nat.succ_le_succ (ih _)
      · simp
    · simp

/-- Witness for C6: with a constant count the loop stops after one attempt. -/
theorem C6_terminacion_convergencia_witness :
    (Scraper.scraping_hasta_no_haber_nuevos
        (fun n : Nat => (n + 1, true)) (fun _ => 0) 2 0).2 = 0 + 1 :=
  (C6_terminacion_convergencia (fun n : Nat => (n + 1, true)) (fun _ => 0) 2 0).2.1
    0 (by decide) (fun i hi => absurd hi (by omega)) (by decide)

/-! ## Claim C7: stop on cycle failure

The monolith loop (`whatsapp_bot.scraping_hasta_no_haber_nuevos`) breaks as
soon as a cycle reports failure.  The modules loop
(`scraper.scraping_hasta_no_haber_nuevos`) discards the cycle's result: after
a failed cycle that nevertheless grew the store it keeps attempting. -/

/-- The claim as stated is false for the modules loop: every cycle reports
failure (and keeps growing the count), yet the loop runs all three attempts
instead of stopping after the first failed cycle. -/
theorem C7_contraejemplo :
    ((fun n : Nat => (n + 1, false)) 0).2 = false ∧
    (Scraper.scraping_hasta_no_haber_nuevos
        (fun n : Nat => (n + 1, false)) (fun n => n) 3 0).2 = 3 := by
  constructor
  · rfl
  · decide

lemma scraping_aux_traza {σ : Type} (ciclo : σ → σ × Bool) (cuenta : σ → Nat) :
    ∀ (n : Nat) (s : σ), ∃ k,
      (Bot.scraping_aux ciclo cuenta n s).2 = List.replicate k true ∨
      (Bot.scraping_aux ciclo cuenta n s).2 = List.replicate k true ++ [false] := by
  intro n
  induction n with
  | zero => intro s; exact ⟨0, Or.inl rfl⟩
  | succ m ih =>
    intro s
    rw [Bot.scraping_aux]
    dsimp only
    split
    · split
      · obtain ⟨k, hk | hk⟩ := ih (ciclo s).1
        · exact ⟨k + 1, Or.inl (by simp [hk, List.replicate_succ])⟩
        · exact ⟨k + 1, Or.inr (by simp [hk, List.replicate_succ])⟩
      · exact ⟨1, Or.inl (by simp)⟩
    · exact ⟨0, Or.inr (by simp)⟩

/-- C7 amended: in the monolith loop a reported failure ends the run — every
trace is some successful cycles possibly closed by one final failed cycle,
and a failing cycle entered with budget left is the only cycle executed.  In
the modules loop, which ignores the flag, a failed attempt is followed by no
further attempts exactly when it left the today-count unchanged. -/
theorem C7_parada_en_fallo :
    (∀ (σ : Type) (ciclo : σ → σ × Bool) (cuenta : σ → Nat) (n : Nat) (s : σ),
      ∃ k,
        (Bot.scraping_hasta_no_haber_nuevos ciclo cuenta n s).2 =
          List.replicate k true ∨
        (Bot.scraping_hasta_no_haber_nuevos ciclo cuenta n s).2 =
          List.replicate k true ++ [false]) ∧
    (∀ (σ : Type) (ciclo : σ → σ × Bool) (cuenta : σ → Nat) (n : Nat) (s s₂ : σ),
      ciclo s = (s₂, false) →
      Bot.scraping_hasta_no_haber_nuevos ciclo cuenta (n + 1) s = (s₂, [false])) ∧
    (∀ (σ : Type) (ciclo : σ → σ × Bool) (cuenta : σ → Nat) (n : Nat) (s : σ),
      cuenta (ciclo s).1 = cuenta s →
      (Scraper.scraping_hasta_no_haber_nuevos ciclo cuenta (n + 1) s).2 = 1) := by
  refine ⟨fun σ ciclo cuenta n s => scraping_aux_traza ciclo cuenta n s,
    fun σ ciclo cuenta n s s₂ hc => ?_, fun σ ciclo cuenta n s hc => ?_⟩
  · rw [Bot.scraping_hasta_no_haber_nuevos, Bot.scraping_aux]
    dsimp only
    rw [hc]
    simp
  · rw [Scraper.scraping_hasta_no_haber_nuevos, Scraper.scraping_aux]
    dsimp only
    rw [if_pos hc]

/-- Witness for the amended C7: a failing first cycle under the monolith loop
is the only cycle executed. -/
theorem C7_parada_en_fallo_witness :
    (fun n : Nat => (n + 1, false)) 0 = (1, false) ∧
    Bot.scraping_hasta_no_haber_nuevos
        (fun n : Nat => (n + 1, false)) (fun n => n) 3 0 = (1, [false]) :=
  ⟨rfl, C7_parada_en_fallo.2.1 Nat (fun n => (n + 1, false)) (fun n => n) 2 0 1 rfl⟩
